import Mathlib

/-!
Shallow embedding of the `transcriber-rs` service (src/services/transcriber-rs)
and proofs about its specification claims.

The embedding models:
- `storage.rs` : `Storage::normalize_object_key` (pure string normalization);
- `transcriber.rs` : the `Transcriber` readiness/engine state machine,
  `ensure_wav_format` (ffmpeg invocation decision) and the duration
  computation of `transcribe` together with `get_audio_duration`;
- `handlers.rs` : the `transcribe` handler's error mapping, the
  `transcribe_batch` handler and the `process_batch` background loop, modelled
  as a function from per-item external outcomes (download / transcription
  success or failure, supplied as an oracle) to the sequence of observable
  effects (status-store writes, download attempts, callback POSTs).

External collaborators (S3 download, Redis, the Parakeet engine, ffmpeg,
tempfile creation) are modelled by outcome parameters; everything the Rust
code itself decides (control flow, what is written, with which fields, in
which order) is translated directly from the source.

Rust `f64` values that the code only moves around or divides (segment
timestamps, durations, sample counts) are modelled as `ℚ`.
-/

namespace TranscriberRs

/-- `Segment` from transcriber.rs: `{start, end, text}`. The `end` field is
named `stop` here because `end` is a Lean keyword. -/
structure Segment where
  start : ℚ
  stop : ℚ
  text : String
deriving Repr, DecidableEq

/-- `TranscriptionResult` from transcriber.rs. -/
structure TranscriptionResult where
  text : String
  segments : List Segment
  duration : ℚ
deriving Repr, DecidableEq

/-- `JobStatus` from queue.rs. -/
structure JobStatus where
  status : String
  current : Option ℕ
  total : Option ℕ
deriving Repr, DecidableEq

/-- `TranscriptionStatus` from queue.rs. -/
structure TranscriptionStatus where
  status : String
  text : Option String
  duration : Option ℚ
  error : Option String
deriving Repr, DecidableEq

/-- `TranscribeRequest` from handlers.rs. -/
structure TranscribeRequest where
  file_url : String
  recording_id : String
  callback_url : Option String
deriving Repr, DecidableEq

/-- `SegmentResponse` from handlers.rs. -/
structure SegmentResponse where
  start : ℚ
  stop : ℚ
  text : String
deriving Repr, DecidableEq

/-- `TranscribeResponse` from handlers.rs. -/
structure TranscribeResponse where
  recording_id : String
  text : String
  segments : List SegmentResponse
  duration : ℚ
deriving Repr, DecidableEq

/-- `BatchResponse` from handlers.rs. -/
structure BatchResponse where
  job_id : String
  status : String
  count : ℕ
deriving Repr, DecidableEq

/-- `ErrorResponse` from handlers.rs: `{error: string}`. -/
structure ErrorResponse where
  error : String
deriving Repr, DecidableEq

/-! ### storage.rs : `Storage::normalize_object_key` -/

/-- Embeds Rust `str::strip_front` semantics on character lists:
`strip_front p s = some rest` iff `s = p ++ rest` (this is the behaviour of
Rust's standard `str` prefix-stripping method used by
`normalize_object_key`). -/
def strip_front : List Char → List Char → Option (List Char)
  | [], s => some s
  | _ :: _, [] => none
  | a :: p, b :: s => if a = b then strip_front p s else none

/-- `Storage::normalize_object_key` from storage.rs, lines 65-73:
`file_url.strip_front(&format!("\x7b\x7d/", bucket_name)).unwrap_or(file_url)`. -/
def normalize_object_key (file_url bucket_name : String) : String :=
  ⟨(strip_front (bucket_name.data ++ ['/']) file_url.data).getD file_url.data⟩

/-! ### transcriber.rs : `ensure_wav_format` -/

/-- A local audio path as `ensure_wav_format` sees it: the path string plus
the result of the standard library's `Path::extension().and_then(to_str)`
call on it (the extension extraction itself is Rust standard-library
behaviour, treated as a collaborator). -/
structure AudioPath where
  path : String
  ext : Option String
deriving Repr, DecidableEq

/-- ASCII lowercasing of one character; models the standard library's
lowercase conversion on the ASCII range, which is all that file extensions
exercise here. -/
def ascii_to_lower (c : Char) : Char :=
  if 'A' ≤ c ∧ c ≤ 'Z' then Char.ofNat (c.toNat + 32) else c

/-- transcriber.rs lines 66-70: the declared extension, defaulted to `""` and
lowercased. -/
def declared_ext (p : AudioPath) : String :=
  ⟨(p.ext.getD "").data.map ascii_to_lower⟩

/-- The argument list passed to the `ffmpeg` subprocess
(transcriber.rs lines 87-95). -/
def ffmpeg_args (input_path output_path : String) : List String :=
  ["-i", input_path, "-ar", "16000", "-ac", "1", "-f", "wav", "-y", output_path]

/-- Outcome of running the external `ffmpeg` process (a collaborator):
either a zero exit status, or a non-zero exit status with captured
standard-error text. -/
inductive ConvOutcome where
  | exitOk
  | exitErr (stderr : String)
deriving Repr, DecidableEq

/-- `Transcriber::ensure_wav_format` from transcriber.rs, lines 65-111.
Returns the list of subprocess invocations performed (each as its argument
list) together with the result: `ok none` when the file is already WAV (fast
path, no subprocess), `ok (some output_path)` on successful conversion, and
the error message built from the subprocess standard error on non-zero exit.
`temp_wav_path` is the fresh ephemeral output path produced by tempfile
creation (a collaborator). -/
def ensure_wav_format (p : AudioPath) (temp_wav_path : String)
    (conv : ConvOutcome) : List (List String) × Except String (Option String) :=
  if declared_ext p = "wav" then
    ([], Except.ok none)
  else
    match conv with
    | ConvOutcome.exitOk =>
        ([ffmpeg_args p.path temp_wav_path], Except.ok (some temp_wav_path))
    | ConvOutcome.exitErr stderr =>
        ([ffmpeg_args p.path temp_wav_path],
         Except.error ("ffmpeg conversion failed: " ++ stderr))

/-! ### transcriber.rs : duration computation and `get_audio_duration` -/

/-- What `get_audio_duration` reads from the WAV header via `hound`:
`reader.len()` (total interleaved sample count), `spec.sample_rate`,
`spec.channels`. -/
structure WavSpec where
  num_samples : ℕ
  sample_rate : ℕ
  channels : ℕ
deriving Repr, DecidableEq

/-- `get_audio_duration` from transcriber.rs, lines 161-168: opens the WAV
file (`none` models `WavReader::open` failing) and returns
`num_samples / sample_rate / channels`. -/
def get_audio_duration : Option WavSpec → Except String ℚ
  | none => Except.error "failed to open wav"
  | some s => Except.ok ((s.num_samples : ℚ) / (s.sample_rate : ℚ) / (s.channels : ℚ))

/-- A raw engine token as returned by `parakeet.transcribe_file`
(`{start, end, text}`; `end` renamed to `stop`). -/
structure Token where
  start : ℚ
  stop : ℚ
  text : String
deriving Repr, DecidableEq

/-- transcriber.rs lines 137-145: one token becomes one segment, unchanged. -/
def tokens_to_segments (tokens : List Token) : List Segment :=
  tokens.map fun t => { start := t.start, stop := t.stop, text := t.text }

/-- transcriber.rs lines 148-151: duration is the last segment's end if any
segment exists, else `get_audio_duration` of the (normalized) audio file,
else `0.0`. `wav` is the header of the file the duration fallback reads. -/
def compute_duration (segments : List Segment) (wav : Option WavSpec) : ℚ :=
  match segments.getLast? with
  | some s => s.stop
  | none =>
      match get_audio_duration wav with
      | Except.ok d => d
      | Except.error _ => 0

/-- The `TranscriptionResult` built by `Transcriber::transcribe` on engine
success (transcriber.rs lines 137-157) from the engine's text and tokens and
the normalized audio file's header. -/
def mk_transcription_result (text : String) (tokens : List Token)
    (wav : Option WavSpec) : TranscriptionResult :=
  let segments := tokens_to_segments tokens
  { text := text, segments := segments, duration := compute_duration segments wav }

/-! ### transcriber.rs : the `Transcriber` readiness state machine -/

/-- The mutable state of `Transcriber` (transcriber.rs lines 25-28): the
engine slot (the `ParakeetTDT` handle modelled as `Unit`) and the
`model_loaded` flag. `Transcriber::new` gives `⟨none, false⟩`. -/
structure TranscriberState where
  engine : Option Unit
  model_loaded : Bool
deriving Repr, DecidableEq

/-- `Transcriber::new` from transcriber.rs, lines 31-36. -/
def Transcriber.new : TranscriberState :=
  { engine := none, model_loaded := false }

/-- One operation applied to a `Transcriber`: a `load_model` call whose engine
construction (`ParakeetTDT::from_pretrained`) succeeds or fails, or a
`transcribe` call (which never writes the engine slot or the flag). -/
inductive TranscriberOp where
  | load (ok : Bool)
  | transcribe_call
deriving Repr, DecidableEq

/-- State transition of one operation. `load_model` (transcriber.rs lines
38-58) stores the engine in the slot and only then sets `model_loaded := true`;
on failure the error propagates before either write, leaving the state
unchanged. `transcribe` (lines 113-158) takes `&self` and never clears
either field. -/
def TranscriberState.step (s : TranscriberState) : TranscriberOp → TranscriberState
  | TranscriberOp.load ok =>
      if ok then { engine := some (), model_loaded := true } else s
  | TranscriberOp.transcribe_call => s

/-- The state after a sequence of operations starting from `Transcriber::new`. -/
def TranscriberState.run (ops : List TranscriberOp) : TranscriberState :=
  ops.foldl TranscriberState.step Transcriber.new

/-- `Transcriber::is_ready` from transcriber.rs, lines 60-62. -/
def is_ready (s : TranscriberState) : Bool :=
  s.model_loaded

/-- The two guard checks at the head of `Transcriber::transcribe`
(transcriber.rs lines 113-116 and line 128): bail with "Model not loaded"
when the flag is false, then fail with "Model not initialized" if the engine
slot is empty. -/
def transcribe_guard (s : TranscriberState) : Except String Unit :=
  if !s.model_loaded then
    Except.error "Model not loaded"
  else
    match s.engine with
    | none => Except.error "Model not initialized"
    | some _ => Except.ok ()

/-! ### handlers.rs : observable effects -/

/-- An observable side effect of the handlers: a `set_job_status` write
attempt, a `set_transcription_result` write attempt, a
`Storage::download_file` attempt with the normalized object key, or a
callback HTTP POST attempt with its body. -/
inductive Event where
  | setJobStatus (job_id : String) (st : JobStatus)
  | setTranscriptionResult (recording_id : String) (st : TranscriptionStatus)
  | downloadAttempt (object_key : String)
  | callbackPost (url : String) (body : TranscribeResponse)
deriving Repr, DecidableEq

/-- handlers.rs lines 141-149 / 286-294: segments of a result mapped into
response segments, field by field. -/
def to_segment_responses (segments : List Segment) : List SegmentResponse :=
  segments.map fun s => { start := s.start, stop := s.stop, text := s.text }

/-- The `TranscribeResponse` built from a recording id and a
`TranscriptionResult` (handlers.rs lines 151-156 and 296-301). -/
def mk_response (recording_id : String) (r : TranscriptionResult) : TranscribeResponse :=
  { recording_id := recording_id
    text := r.text
    segments := to_segment_responses r.segments
    duration := r.duration }

/-- The externally determined outcome of processing one item: tempfile
creation failure, download failure, transcription failure (each with the
error's display text), or transcription success. On success,
`delivery_ok` records whether the callback POST (if any is sent) succeeds
on the wire — the code discards that result. -/
inductive ItemOutcome where
  | tempFileErr (msg : String)
  | downloadErr (msg : String)
  | transcribeErr (msg : String)
  | success (r : TranscriptionResult) (delivery_ok : Bool)
deriving Repr, DecidableEq

/-- The events of one iteration of the `process_batch` loop
(handlers.rs lines 207-328) for item index `i` (0-based) out of `total`:
the progress write `processing, current = i+1`, then—depending on the
item's outcome—the failure or success writes and the optional callback
POST. In every failure case the iteration ends in `continue`. -/
def process_item (bucket job_id : String) (total i : ℕ)
    (req : TranscribeRequest) (out : ItemOutcome) : List Event :=
  Event.setJobStatus job_id
      { status := "processing", current := some (i + 1), total := some total } ::
    match out with
    | ItemOutcome.tempFileErr msg =>
        [Event.setTranscriptionResult req.recording_id
          { status := "failed", text := none, duration := none, error := some msg }]
    | ItemOutcome.downloadErr msg =>
        [Event.downloadAttempt (normalize_object_key req.file_url bucket),
         Event.setTranscriptionResult req.recording_id
          { status := "failed", text := none, duration := none, error := some msg }]
    | ItemOutcome.transcribeErr msg =>
        [Event.downloadAttempt (normalize_object_key req.file_url bucket),
         Event.setTranscriptionResult req.recording_id
          { status := "failed", text := none, duration := none, error := some msg }]
    | ItemOutcome.success r _ =>
        [Event.downloadAttempt (normalize_object_key req.file_url bucket),
         Event.setTranscriptionResult req.recording_id
          { status := "completed", text := some r.text,
            duration := some r.duration, error := none }] ++
        match req.callback_url with
        | some url => [Event.callbackPost url (mk_response req.recording_id r)]
        | none => []

/-- The `for (i, request) in requests.into_iter().enumerate()` loop of
`process_batch`, starting at index `i`, with each item paired with its
external outcome. -/
def run_items (bucket job_id : String) (total : ℕ) :
    ℕ → List (TranscribeRequest × ItemOutcome) → List Event
  | _, [] => []
  | i, (req, out) :: rest =>
      process_item bucket job_id total i req out ++
        run_items bucket job_id total (i + 1) rest

/-- `process_batch` from handlers.rs, lines 204-344: the loop over all items
followed by the single final write
`JobStatus{completed, current = total, total}`. -/
def process_batch (bucket job_id : String)
    (items : List (TranscribeRequest × ItemOutcome)) : List Event :=
  run_items bucket job_id items.length 0 items ++
    [Event.setJobStatus job_id
      { status := "completed", current := some items.length,
        total := some items.length }]

/-- The initial job-status write of `transcribe_batch`
(handlers.rs lines 169-179): `JobStatus{queued, current = 0, total = count}`. -/
def transcribe_batch_init_write (job_id : String)
    (requests : List TranscribeRequest) : Event :=
  Event.setJobStatus job_id
    { status := "queued", current := some 0, total := some requests.length }

/-- The HTTP result of `transcribe_batch` (handlers.rs lines 159-202):
`200 {job_id, "queued", count}` when the initial status write succeeds,
`500 {error: "Failed to queue job"}` when it fails. -/
def transcribe_batch_result (job_id : String) (requests : List TranscribeRequest)
    (init_write_ok : Bool) : Except (ℕ × ErrorResponse) BatchResponse :=
  if init_write_ok then
    Except.ok { job_id := job_id, status := "queued", count := requests.length }
  else
    Except.error (500, { error := "Failed to queue job" })

/-- The full sequence of job/result-store writes, download attempts and
callback POSTs a batch job performs: the initial `queued` write from
`transcribe_batch`, then everything `process_batch` does. -/
def transcribe_batch_trace (bucket job_id : String)
    (items : List (TranscribeRequest × ItemOutcome)) : List Event :=
  transcribe_batch_init_write job_id (items.map Prod.fst) ::
    process_batch bucket job_id items

/-! ### handlers.rs : the single `transcribe` handler -/

/-- The `transcribe` handler from handlers.rs, lines 77-157, as a function of
the readiness flag and the externally determined outcome: the events it
performs (download attempts) and its HTTP result. Not ready → `503` with
`{error: "Transcriber not ready"}` before anything else; tempfile failure →
`500 "Internal error"`; download failure → `404 "Audio file not found: …"`;
transcription failure → `500 "Transcription failed: …"`; success → `200`
with the full response. -/
def transcribe (ready : Bool) (bucket : String) (req : TranscribeRequest)
    (out : ItemOutcome) :
    List Event × Except (ℕ × ErrorResponse) TranscribeResponse :=
  if !ready then
    ([], Except.error (503, { error := "Transcriber not ready" }))
  else
    match out with
    | ItemOutcome.tempFileErr _ =>
        ([], Except.error (500, { error := "Internal error" }))
    | ItemOutcome.downloadErr msg =>
        ([Event.downloadAttempt (normalize_object_key req.file_url bucket)],
         Except.error (404, { error := "Audio file not found: " ++ msg }))
    | ItemOutcome.transcribeErr msg =>
        ([Event.downloadAttempt (normalize_object_key req.file_url bucket)],
         Except.error (500, { error := "Transcription failed: " ++ msg }))
    | ItemOutcome.success r _ =>
        ([Event.downloadAttempt (normalize_object_key req.file_url bucket)],
         Except.ok (mk_response req.recording_id r))

/-! ### Trace observers -/

/-- The sequence of `JobStatus` records written (in order) for `job_id` in a
trace. -/
def job_writes (job_id : String) (tr : List Event) : List JobStatus :=
  tr.filterMap fun e =>
    match e with
    | Event.setJobStatus j st => if j = job_id then some st else none
    | _ => none

/-- Whether an event is a `set_job_status` write for `job_id` whose status
field is `"completed"`. -/
def is_completed_job_write (job_id : String) : Event → Bool
  | Event.setJobStatus j st => j == job_id && st.status == "completed"
  | _ => false

/-- Whether an event is a callback HTTP POST attempt. -/
def is_callback : Event → Bool
  | Event.callbackPost _ _ => true
  | _ => false

/-! ## Lemmas -/

theorem strip_front_append (p rest : List Char) :
    strip_front p (p ++ rest) = some rest := by
  induction p with
  | nil => rfl
  | cons a p ih => simp [strip_front, ih]

theorem strip_front_eq_some_iff (p : List Char) :
    ∀ s rest, strip_front p s = some rest ↔ s = p ++ rest := by
  induction p with
  | nil =>
    intro s rest
    simp [strip_front, eq_comm]
  | cons a p ih =>
    intro s rest
    cases s with
    | nil => simp [strip_front]
    | cons b s =>
      by_cases hab : a = b
      · subst hab
        simp [strip_front, ih]
      · simp [strip_front, hab, Ne.symm hab]

theorem strip_front_eq_none_iff (p s : List Char) :
    strip_front p s = none ↔ ∀ rest, s ≠ p ++ rest := by
  constructor
  · intro h rest hs
    rw [← strip_front_eq_some_iff] at hs
    rw [h] at hs
    exact Option.noConfusion hs
  · intro h
    cases hst : strip_front p s with
    | none => rfl
    | some rest => exact absurd ((strip_front_eq_some_iff p s rest).mp hst) (h rest)

theorem job_writes_append (job_id : String) (a b : List Event) :
    job_writes job_id (a ++ b) = job_writes job_id a ++ job_writes job_id b :=
  List.filterMap_append a b _

theorem job_writes_process_item (bucket job_id : String) (total i : ℕ)
    (req : TranscribeRequest) (out : ItemOutcome) :
    job_writes job_id (process_item bucket job_id total i req out) =
      [{ status := "processing", current := some (i + 1), total := some total }] := by
  cases out with
  | tempFileErr msg => simp [process_item, job_writes]
  | downloadErr msg => simp [process_item, job_writes]
  | transcribeErr msg => simp [process_item, job_writes]
  | success r d =>
    cases h : req.callback_url <;> simp [process_item, job_writes, h]

theorem job_writes_run_items (bucket job_id : String) (total : ℕ) :
    ∀ (items : List (TranscribeRequest × ItemOutcome)) (i : ℕ),
      job_writes job_id (run_items bucket job_id total i items) =
        (List.range' (i + 1) items.length).map
          (fun k =>
            { status := "processing", current := some k, total := some total }) := by
  intro items
  induction items with
  | nil => intro i; simp [run_items, job_writes]
  | cons x rest ih =>
    intro i
    obtain ⟨req, out⟩ := x
    rw [run_items, job_writes_append, job_writes_process_item, ih (i + 1)]
    simp [List.range'_succ]

theorem job_writes_trace (bucket job_id : String)
    (items : List (TranscribeRequest × ItemOutcome)) :
    job_writes job_id (transcribe_batch_trace bucket job_id items) =
      { status := "queued", current := some 0, total := some items.length } ::
        ((List.range' 1 items.length).map
          (fun k =>
            { status := "processing", current := some k,
              total := some items.length : JobStatus }) ++
         [{ status := "completed", current := some items.length,
            total := some items.length }]) := by
  rw [transcribe_batch_trace, process_batch]
  show job_writes job_id
      ([transcribe_batch_init_write job_id (items.map Prod.fst)] ++
        (run_items bucket job_id items.length 0 items ++ _)) = _
  rw [job_writes_append, job_writes_append, job_writes_run_items]
  simp [job_writes, transcribe_batch_init_write]

theorem filter_completed_process_item (bucket job_id : String) (total i : ℕ)
    (req : TranscribeRequest) (out : ItemOutcome) :
    (process_item bucket job_id total i req out).filter
      (is_completed_job_write job_id) = [] := by
  cases out with
  | tempFileErr msg => simp [process_item, is_completed_job_write]
  | downloadErr msg => simp [process_item, is_completed_job_write]
  | transcribeErr msg => simp [process_item, is_completed_job_write]
  | success r d =>
    cases h : req.callback_url <;> simp [process_item, is_completed_job_write, h]

theorem filter_completed_run_items (bucket job_id : String) (total : ℕ) :
    ∀ (items : List (TranscribeRequest × ItemOutcome)) (i : ℕ),
      (run_items bucket job_id total i items).filter
        (is_completed_job_write job_id) = [] := by
  intro items
  induction items with
  | nil => intro i; simp [run_items]
  | cons x rest ih =>
    intro i
    obtain ⟨req, out⟩ := x
    rw [run_items, List.filter_append, filter_completed_process_item, ih (i + 1)]
    rfl

theorem run_items_append (bucket job_id : String) (total : ℕ) :
    ∀ (a b : List (TranscribeRequest × ItemOutcome)) (i : ℕ),
      run_items bucket job_id total i (a ++ b) =
        run_items bucket job_id total i a ++
          run_items bucket job_id total (i + a.length) b := by
  intro a
  induction a with
  | nil => intro b i; simp [run_items]
  | cons x rest ih =>
    intro b i
    obtain ⟨req, out⟩ := x
    have hidx : i + (rest.length + 1) = (i + 1) + rest.length := by omega
    simp only [List.cons_append, run_items, List.length_cons, hidx,
      List.append_eq]
    rw [ih b (i + 1), List.append_assoc]

theorem process_item_head (bucket job_id : String) (total i : ℕ)
    (req : TranscribeRequest) (out : ItemOutcome) :
    ∃ tl, process_item bucket job_id total i req out =
      Event.setJobStatus job_id
          { status := "processing", current := some (i + 1),
            total := some total } :: tl :=
  ⟨_, rfl⟩

theorem processing_write_mem_run_items (bucket job_id : String) (total : ℕ) :
    ∀ (items : List (TranscribeRequest × ItemOutcome)) (i j : ℕ),
      j < items.length →
      Event.setJobStatus job_id
          { status := "processing", current := some (i + j + 1),
            total := some total }
        ∈ run_items bucket job_id total i items := by
  intro items
  induction items with
  | nil => intro i j h; simp at h
  | cons x rest ih =>
    intro i j h
    obtain ⟨req, out⟩ := x
    cases j with
    | zero =>
      rw [run_items]
      apply List.mem_append_left
      obtain ⟨tl, htl⟩ := process_item_head bucket job_id total i req out
      rw [htl]
      simp
    | succ j =>
      have hm := ih (i + 1) j (by simpa using Nat.lt_of_succ_lt_succ h)
      rw [run_items]
      apply List.mem_append_right
      have hidx : i + (j + 1) + 1 = (i + 1) + j + 1 := by omega
      rw [hidx]
      exact hm

/-! ## Claim theorems -/

/-- C1: for every batch job of N items, whatever each item's outcome, the
trace of `JobStatus` writes contains exactly one write with status
`"completed"` — the write `{completed, current = N, total = N}` — and that
write is the very last event of the whole trace (after all items were
processed), regardless of how many items failed. -/
theorem batch_final_completed_write (bucket job_id : String)
    (items : List (TranscribeRequest × ItemOutcome)) :
    (transcribe_batch_trace bucket job_id items).filter
        (is_completed_job_write job_id) =
      [Event.setJobStatus job_id
        { status := "completed", current := some items.length,
          total := some items.length }] ∧
    (transcribe_batch_trace bucket job_id items).getLast? =
      some (Event.setJobStatus job_id
        { status := "completed", current := some items.length,
          total := some items.length }) := by
  constructor
  · rw [transcribe_batch_trace, process_batch]
    rw [show transcribe_batch_init_write job_id (items.map Prod.fst) ::
          (run_items bucket job_id items.length 0 items ++
            [Event.setJobStatus job_id
              { status := "completed", current := some items.length,
                total := some items.length }]) =
        [transcribe_batch_init_write job_id (items.map Prod.fst)] ++
          run_items bucket job_id items.length 0 items ++
          [Event.setJobStatus job_id
            { status := "completed", current := some items.length,
              total := some items.length }] by simp]
    rw [List.filter_append, List.filter_append, filter_completed_run_items]
    simp [transcribe_batch_init_write, is_completed_job_write]
  · rw [transcribe_batch_trace, process_batch, ← List.cons_append,
      List.getLast?_concat]

/-- C8: across the sequence of `JobStatus` writes of one batch job (initial
`queued` write, per-item `processing` writes, final `completed` write) the
`current` field takes exactly the values `0, 1, …, N, N` (monotonically
non-decreasing), the `total` field is `N` in every single write (constant,
fixed at job creation), and the one write whose status is `"completed"`
has `current = total = N`. -/
theorem job_status_write_invariants (bucket job_id : String)
    (items : List (TranscribeRequest × ItemOutcome)) :
    (job_writes job_id (transcribe_batch_trace bucket job_id items)).filterMap
        JobStatus.current =
      List.range (items.length + 1) ++ [items.length] ∧
    (job_writes job_id (transcribe_batch_trace bucket job_id items)).filterMap
        JobStatus.total =
      List.replicate (items.length + 2) items.length ∧
    List.Pairwise (fun a b => a ≤ b)
      ((job_writes job_id (transcribe_batch_trace bucket job_id items)).filterMap
        JobStatus.current) ∧
    (job_writes job_id (transcribe_batch_trace bucket job_id items)).filter
        (fun st => st.status == "completed") =
      [{ status := "completed", current := some items.length,
         total := some items.length }] := by
  have haux :
      ∀ (total : ℕ) (l : List ℕ),
        (l.map (fun k =>
            ({ status := "processing", current := some k,
               total := some total } : JobStatus))).filterMap
          JobStatus.current = l ∧
        (l.map (fun k =>
            ({ status := "processing", current := some k,
               total := some total } : JobStatus))).filterMap
          JobStatus.total = List.replicate l.length total ∧
        (l.map (fun k =>
            ({ status := "processing", current := some k,
               total := some total } : JobStatus))).filter
          (fun st => st.status == "completed") = [] := by
    intro total l
    induction l with
    | nil => exact ⟨rfl, rfl, rfl⟩
    | cons a l ih =>
      refine ⟨?_, ?_, ?_⟩
      · simpa using ih.1
      · simpa [List.replicate_succ] using ih.2.1
      · simp [ih.2.2]
  have hcur :
      (job_writes job_id (transcribe_batch_trace bucket job_id items)).filterMap
          JobStatus.current =
        List.range (items.length + 1) ++ [items.length] := by
    rw [job_writes_trace]
    simp only [List.filterMap_cons, List.filterMap_append,
      (haux items.length (List.range' 1 items.length)).1]
    simp [List.range_eq_range', List.range'_succ]
  refine ⟨hcur, ?_, ?_, ?_⟩
  · rw [job_writes_trace]
    simp only [List.filterMap_cons, List.filterMap_append,
      (haux items.length (List.range' 1 items.length)).2.1]
    simp only [List.length_range']
    rw [show items.length + 2 = (items.length + 1) + 1 from rfl,
      List.replicate_succ]
    simp [List.replicate_succ']
  · rw [hcur]
    rw [List.pairwise_append]
    refine ⟨(List.pairwise_lt_range _).imp (fun h => Nat.le_of_lt h),
      List.pairwise_singleton _ _, ?_⟩
    intro a ha b hb
    simp only [List.mem_range] at ha
    simp only [List.mem_singleton] at hb
    omega
  · rw [job_writes_trace]
    rw [List.filter_cons, List.filter_append,
      (haux items.length (List.range' 1 items.length)).2.2]
    simp

/-- C10: a batch request with an empty request list still succeeds: the
handler's result is `ok {job_id, "queued", count = 0}` (HTTP 200), the
initial write is `JobStatus{queued, current = 0, total = 0}`, and the
background task's whole trace is the single write
`JobStatus{completed, current = 0, total = 0}` — no per-item writes. -/
theorem empty_batch_behavior (bucket job_id : String) :
    transcribe_batch_result job_id [] true =
      Except.ok { job_id := job_id, status := "queued", count := 0 } ∧
    transcribe_batch_init_write job_id [] =
      Event.setJobStatus job_id
        { status := "queued", current := some 0, total := some 0 } ∧
    process_batch bucket job_id [] =
      [Event.setJobStatus job_id
        { status := "completed", current := some 0, total := some 0 }] := by
  refine ⟨rfl, rfl, rfl⟩

/-- C2: if one batch item's download or transcription fails with message
`msg`, the trace contains the terminal write
`TranscriptionStatus{failed, error = msg}` for that item's recording id,
and every item of the batch — the later ones included — still gets its
`processing` progress write: an item failure never aborts the remainder of
the batch. -/
theorem batch_item_failure_isolated (bucket job_id : String)
    (pre post : List (TranscribeRequest × ItemOutcome))
    (req : TranscribeRequest) (out : ItemOutcome) (msg : String)
    (hfail : out = ItemOutcome.downloadErr msg ∨
             out = ItemOutcome.transcribeErr msg) :
    Event.setTranscriptionResult req.recording_id
        { status := "failed", text := none, duration := none,
          error := some msg }
      ∈ transcribe_batch_trace bucket job_id (pre ++ (req, out) :: post) ∧
    ∀ j, j < (pre ++ (req, out) :: post).length →
      Event.setJobStatus job_id
          { status := "processing", current := some (j + 1),
            total := some (pre ++ (req, out) :: post).length }
        ∈ transcribe_batch_trace bucket job_id (pre ++ (req, out) :: post) := by
  constructor
  · rw [transcribe_batch_trace, process_batch]
    apply List.mem_cons_of_mem
    apply List.mem_append_left
    rw [run_items_append]
    apply List.mem_append_right
    rw [run_items]
    apply List.mem_append_left
    rcases hfail with h | h <;> subst h <;> simp [process_item]
  · intro j hj
    rw [transcribe_batch_trace, process_batch]
    apply List.mem_cons_of_mem
    apply List.mem_append_left
    have hm := processing_write_mem_run_items bucket job_id
      (pre ++ (req, out) :: post).length (pre ++ (req, out) :: post) 0 j hj
    simpa using hm

/-- Witness for C2 at a concrete two-item batch whose first item's download
fails: the failed write for the first recording is in the trace, and so is
the second item's progress write. -/
theorem batch_item_failure_isolated_witness :
    Event.setTranscriptionResult "rec1"
        { status := "failed", text := none, duration := none,
          error := some "boom" }
      ∈ transcribe_batch_trace "bucket" "job"
          [({ file_url := "a.ogg", recording_id := "rec1",
              callback_url := none }, ItemOutcome.downloadErr "boom"),
           ({ file_url := "b.ogg", recording_id := "rec2",
              callback_url := none },
            ItemOutcome.success
              { text := "hi", segments := [], duration := 0 } true)] ∧
    Event.setJobStatus "job"
        { status := "processing", current := some 2, total := some 2 }
      ∈ transcribe_batch_trace "bucket" "job"
          [({ file_url := "a.ogg", recording_id := "rec1",
              callback_url := none }, ItemOutcome.downloadErr "boom"),
           ({ file_url := "b.ogg", recording_id := "rec2",
              callback_url := none },
            ItemOutcome.success
              { text := "hi", segments := [], duration := 0 } true)] := by
  have h := batch_item_failure_isolated "bucket" "job" []
    [({ file_url := "b.ogg", recording_id := "rec2", callback_url := none },
      ItemOutcome.success { text := "hi", segments := [], duration := 0 } true)]
    { file_url := "a.ogg", recording_id := "rec1", callback_url := none }
    (ItemOutcome.downloadErr "boom") "boom" (Or.inl rfl)
  exact ⟨h.1, h.2 1 (by decide)⟩

/-- C5: within one item's processing, the success outcome with a callback
URL produces exactly one callback POST carrying the full response
(recording id, text, segments, duration); success without a callback URL
produces none; the events are identical whether the POST's delivery
succeeds or fails (delivery failure is swallowed); and no failure outcome
(tempfile, download or transcription) ever produces a callback POST. -/
theorem callback_iff_success (bucket job_id : String) (total i : ℕ)
    (req : TranscribeRequest) :
    (∀ r url d, req.callback_url = some url →
      (process_item bucket job_id total i req
          (ItemOutcome.success r d)).filter is_callback =
        [Event.callbackPost url (mk_response req.recording_id r)]) ∧
    (∀ r d, req.callback_url = none →
      (process_item bucket job_id total i req
          (ItemOutcome.success r d)).filter is_callback = []) ∧
    (∀ r d d',
      process_item bucket job_id total i req (ItemOutcome.success r d) =
        process_item bucket job_id total i req (ItemOutcome.success r d')) ∧
    (∀ msg,
      (process_item bucket job_id total i req
          (ItemOutcome.tempFileErr msg)).filter is_callback = [] ∧
      (process_item bucket job_id total i req
          (ItemOutcome.downloadErr msg)).filter is_callback = [] ∧
      (process_item bucket job_id total i req
          (ItemOutcome.transcribeErr msg)).filter is_callback = []) := by
  refine ⟨?_, ?_, ?_, ?_⟩
  · intro r url d h
    simp [process_item, h, is_callback]
  · intro r d h
    simp [process_item, h, is_callback]
  · intro r d d'
    rfl
  · intro msg
    exact ⟨by simp [process_item, is_callback],
      by simp [process_item, is_callback],
      by simp [process_item, is_callback]⟩

/-- Witness for C5 at a concrete item: a successful item whose request
carries a callback URL yields exactly the one POST with the full result,
and the same request failing at download yields no POST. -/
theorem callback_iff_success_witness :
    (process_item "bucket" "job" 1 0
        { file_url := "a.ogg", recording_id := "rec1",
          callback_url := some "http://cb" }
        (ItemOutcome.success
          { text := "hi",
            segments := [{ start := 0, stop := 2, text := "hi" }],
            duration := 2 } true)).filter is_callback =
      [Event.callbackPost "http://cb"
        (mk_response "rec1"
          { text := "hi",
            segments := [{ start := 0, stop := 2, text := "hi" }],
            duration := 2 })] ∧
    (process_item "bucket" "job" 1 0
        { file_url := "a.ogg", recording_id := "rec1",
          callback_url := some "http://cb" }
        (ItemOutcome.downloadErr "gone")).filter is_callback = [] := by
  have h := callback_iff_success "bucket" "job" 1 0
    { file_url := "a.ogg", recording_id := "rec1",
      callback_url := some "http://cb" }
  refine ⟨?_, (h.2.2.2 "gone").2.1⟩
  exact h.1 ⟨"hi", [⟨0, 2, "hi"⟩], 2⟩ "http://cb" true rfl

/-- C3: the `POST /transcribe` handler returns `503 {error: "Transcriber
not ready"}` with no download attempt when the engine is not ready
(whatever would have happened next); with a ready engine it returns `500
{error: "Internal error"}` on tempfile failure, `404 {error: "Audio file
not found: …"}` on download failure, `500 {error: "Transcription failed:
…"}` on transcription failure, and the full `200` response on success.
Every error result carries an `ErrorResponse {error: string}` body. -/
theorem transcribe_http_error_contract (bucket : String)
    (req : TranscribeRequest) (out : ItemOutcome) (msg : String)
    (r : TranscriptionResult) (d : Bool) :
    transcribe false bucket req out =
      ([], Except.error (503, { error := "Transcriber not ready" })) ∧
    transcribe true bucket req (ItemOutcome.tempFileErr msg) =
      ([], Except.error (500, { error := "Internal error" })) ∧
    transcribe true bucket req (ItemOutcome.downloadErr msg) =
      ([Event.downloadAttempt (normalize_object_key req.file_url bucket)],
       Except.error (404, { error := "Audio file not found: " ++ msg })) ∧
    transcribe true bucket req (ItemOutcome.transcribeErr msg) =
      ([Event.downloadAttempt (normalize_object_key req.file_url bucket)],
       Except.error (500, { error := "Transcription failed: " ++ msg })) ∧
    transcribe true bucket req (ItemOutcome.success r d) =
      ([Event.downloadAttempt (normalize_object_key req.file_url bucket)],
       Except.ok (mk_response req.recording_id r)) :=
  ⟨rfl, rfl, rfl, rfl, rfl⟩

/-- C4: the duration of a successful transcription is the end time of the
last segment when at least one segment (token) exists; with zero segments
it is the normalized audio file's sample count divided by the sample rate
and the channel count; it is `0` when that header cannot be read; and a
2-second 16kHz mono file (32000 samples) yields duration `2`. -/
theorem transcription_duration_derivation (text : String) (ts : List Token)
    (t : Token) (spec : WavSpec) (w : Option WavSpec) :
    (mk_transcription_result text (ts ++ [t]) w).duration = t.stop ∧
    (mk_transcription_result text [] (some spec)).duration =
      (spec.num_samples : ℚ) / (spec.sample_rate : ℚ) / (spec.channels : ℚ) ∧
    (mk_transcription_result text [] none).duration = 0 ∧
    (mk_transcription_result text []
        (some { num_samples := 32000, sample_rate := 16000,
                channels := 1 })).duration = 2 := by
  refine ⟨?_, rfl, rfl, ?_⟩
  · simp [mk_transcription_result, compute_duration, tokens_to_segments,
      List.map_append, List.getLast?_concat]
  · show ((32000 : ℚ) / (16000 : ℚ) / (1 : ℚ)) = 2
    norm_num

/-- C6: `normalize_object_key` removes a leading `"{bucket_name}/"` from the
file reference when the reference decomposes as that prefix followed by a
rest, and returns the reference unchanged when no such decomposition exists
(the `strip_front … = none` condition, shown equivalent to "no matching
prefix"); in the unchanged case a second application is a no-op. -/
theorem normalize_object_key_contract (file_url bucket rest : String) :
    (file_url = bucket ++ "/" ++ rest →
      normalize_object_key file_url bucket = rest) ∧
    (strip_front (bucket.data ++ ['/']) file_url.data = none →
      normalize_object_key file_url bucket = file_url) ∧
    (strip_front (bucket.data ++ ['/']) file_url.data = none ↔
      ∀ r : String, file_url ≠ bucket ++ "/" ++ r) ∧
    (strip_front (bucket.data ++ ['/']) file_url.data = none →
      normalize_object_key (normalize_object_key file_url bucket) bucket =
        normalize_object_key file_url bucket) := by
  have hdata : ∀ r : String, (bucket ++ "/" ++ r).data =
      (bucket.data ++ ['/']) ++ r.data := by
    intro r
    simp [String.data_append]
  have hnone : strip_front (bucket.data ++ ['/']) file_url.data = none →
      normalize_object_key file_url bucket = file_url := by
    intro h
    unfold normalize_object_key
    rw [h]
    rfl
  refine ⟨?_, hnone, ?_, ?_⟩
  · intro h
    subst h
    unfold normalize_object_key
    rw [hdata rest, strip_front_append]
    rfl
  · constructor
    · intro h r hr
      have := (strip_front_eq_none_iff _ _).mp h r.data
      exact this (by rw [hr, hdata r])
    · intro h
      apply (strip_front_eq_none_iff _ _).mpr
      intro restL hL
      apply h ⟨restL⟩
      have hd : (bucket ++ "/" ++ (⟨restL⟩ : String)).data = file_url.data := by
        rw [hdata ⟨restL⟩, ← hL]
      exact (congrArg String.mk hd).symm
  · intro h
    rw [hnone h, hnone h]

/-- Witness for C6: `resolve_key("bucket/foo.ogg", "bucket") = "foo.ogg"`,
and `resolve_key("foo.ogg", "bucket")` is `"foo.ogg"` unchanged, with a
second application still a no-op. -/
theorem normalize_object_key_contract_witness :
    normalize_object_key "bucket/foo.ogg" "bucket" = "foo.ogg" ∧
    normalize_object_key "foo.ogg" "bucket" = "foo.ogg" ∧
    normalize_object_key (normalize_object_key "foo.ogg" "bucket") "bucket" =
      normalize_object_key "foo.ogg" "bucket" := by
  have h1 := normalize_object_key_contract "bucket/foo.ogg" "bucket" "foo.ogg"
  have h2 := normalize_object_key_contract "foo.ogg" "bucket" "x"
  exact ⟨h1.1 (by decide), h2.2.1 (by decide), h2.2.2.2 (by decide)⟩

/-- C7: `ensure_wav_format` is a pure fast path returning `none` with no
subprocess invocation whatever the converter would have done, when the
declared (lowercased) extension is already `"wav"`; otherwise it invokes
ffmpeg exactly once with the explicit arguments `-ar 16000 -ac 1 -f wav -y`
on the input and fresh output paths, returns the new output path on zero
exit, and fails with the error text carrying the subprocess's standard
error verbatim on non-zero exit. -/
theorem ensure_wav_format_contract (p : AudioPath) (out_path stderr : String) :
    (declared_ext p = "wav" →
      (∀ conv, ensure_wav_format p out_path conv = ([], Except.ok none))) ∧
    (declared_ext p ≠ "wav" →
      ensure_wav_format p out_path ConvOutcome.exitOk =
        ([["-i", p.path, "-ar", "16000", "-ac", "1", "-f", "wav", "-y",
           out_path]],
         Except.ok (some out_path)) ∧
      ensure_wav_format p out_path (ConvOutcome.exitErr stderr) =
        ([["-i", p.path, "-ar", "16000", "-ac", "1", "-f", "wav", "-y",
           out_path]],
         Except.error ("ffmpeg conversion failed: " ++ stderr))) := by
  constructor
  · intro h conv
    cases conv <;> simp [ensure_wav_format, h]
  · intro h
    exact ⟨by simp [ensure_wav_format, h, ffmpeg_args],
      by simp [ensure_wav_format, h, ffmpeg_args]⟩

/-- Witness for C7: a `.WAV` file (extension lowercased) takes the fast
path even when the converter would have failed; a `.ogg` file is converted
with the full argument list, and a failing conversion surfaces the
captured standard error. -/
theorem ensure_wav_format_contract_witness :
    ensure_wav_format { path := "/tmp/a.WAV", ext := some "WAV" } "/tmp/o.wav"
        (ConvOutcome.exitErr "ignored") = ([], Except.ok none) ∧
    ensure_wav_format { path := "/tmp/a.ogg", ext := some "ogg" } "/tmp/o.wav"
        (ConvOutcome.exitErr "bad codec") =
      ([["-i", "/tmp/a.ogg", "-ar", "16000", "-ac", "1", "-f", "wav", "-y",
         "/tmp/o.wav"]],
       Except.error ("ffmpeg conversion failed: " ++ "bad codec")) := by
  have h1 := ensure_wav_format_contract
    { path := "/tmp/a.WAV", ext := some "WAV" } "/tmp/o.wav" "ignored"
  have h2 := ensure_wav_format_contract
    { path := "/tmp/a.ogg", ext := some "ogg" } "/tmp/o.wav" "bad codec"
  exact ⟨h1.1 (by decide) (ConvOutcome.exitErr "ignored"),
    (h2.2 (by decide)).2⟩

/-- C9: after any sequence of `load_model` attempts and `transcribe` calls
starting from `Transcriber::new`, whenever `is_ready()` reports `true` the
engine slot is populated, so `transcribe`'s guard succeeds — the internal
"Model not initialized" branch is unreachable once a load has succeeded. -/
theorem engine_slot_populated_when_ready (ops : List TranscriberOp)
    (h : is_ready (TranscriberState.run ops) = true) :
    transcribe_guard (TranscriberState.run ops) = Except.ok () := by
  have hinv : ∀ (l : List TranscriberOp) (s : TranscriberState),
      (s.model_loaded = true → s.engine.isSome = true) →
      ((l.foldl TranscriberState.step s).model_loaded = true →
        (l.foldl TranscriberState.step s).engine.isSome = true) := by
    intro l
    induction l with
    | nil => intro s hs; exact hs
    | cons op rest ih =>
      intro s hs
      apply ih
      cases op with
      | load ok =>
        cases ok with
        | true => intro _; rfl
        | false => exact hs
      | transcribe_call => exact hs
  have hml : (TranscriberState.run ops).model_loaded = true := h
  have hsome : (TranscriberState.run ops).engine.isSome = true :=
    hinv ops Transcriber.new (by intro h'; exact absurd h' (by decide)) hml
  obtain ⟨u, hu⟩ := Option.isSome_iff_exists.mp hsome
  unfold transcribe_guard
  rw [hml, hu]
  rfl

/-- Witness for C9: after one successful `load_model`, the readiness flag is
set and the transcribe guard succeeds. -/
theorem engine_slot_populated_when_ready_witness :
    transcribe_guard (TranscriberState.run [TranscriberOp.load true]) =
      Except.ok () :=
  engine_slot_populated_when_ready [TranscriberOp.load true] rfl
